import Mathlib

/-!
Shallow embedding of the central logic of the pw-web-app-tests repository:
the tier classifier (utils/helper.ts), the test-type enumeration
(utils/test_type.ts), the data-driven case tables and verification steps of
the input-field suites, the drag-and-drop sequences of the boxes and images
suites, the alert dialog handlers, and the bounding-box reporter.
Machine-level JavaScript details (promises, the DOM) are modelled as
explicit data: each verification step is embedded as the list of assertions
it issues, each drag step as the list of automation actions it performs.
-/

set_option autoImplicit false

namespace PwTests

/-! ### utils/test_type.ts -/

/-- The string enum TestType with members Sanity, Smoke, Regression
(declaration order), whose runtime values are the strings below. -/
inductive TestType where
  | Sanity
  | Smoke
  | Regression
  deriving DecidableEq, Repr

/-- Runtime value of each TestType member (TS string enum). -/
def TestType.val : TestType → String
  | .Sanity => "sanity"
  | .Smoke => "smoke"
  | .Regression => "regression"

/-- Object.values(TestType) for the TS string enum: the members in
declaration order. -/
def testTypeObjectValues : List TestType :=
  [.Sanity, .Smoke, .Regression]

namespace TestTypeDefinition

/-- TestTypeDefinition.is_valid_test_type: membership of the given string
among the runtime values of the enum. -/
def is_valid_test_type (ty : String) : Bool :=
  (testTypeObjectValues.map TestType.val).contains ty

/-- TestTypeDefinition.get_test_types: Object.values(TestType). -/
def get_test_types : List TestType :=
  testTypeObjectValues

end TestTypeDefinition

/-! ### utils/helper.ts -/

/-- A JavaScript caller may pass getTestType an array of strings or any
non-array value; the distinction drives the Array.isArray guard. -/
inductive JSInput where
  | arr (ts : List String)
  | nonArray
  deriving DecidableEq, Repr

/-- The only error the helper raises is a TypeError with a message. -/
inductive JSError where
  | typeError (msg : String)
  deriving DecidableEq, Repr

/-- getTestType from utils/helper.ts: rejects non-arrays and empty arrays
with a TypeError, otherwise maps each element to the marker character
followed by the element and joins the tags with an empty separator. -/
def getTestType (t_type : JSInput) : Except JSError String :=
  match t_type with
  | .nonArray => .error (.typeError "t_type must be an array of strings")
  | .arr ts =>
    if ts.length = 0 then
      .error (.typeError "t_type cannot be an empty array")
    else
      .ok (String.join (ts.map (fun ty => "@" ++ ty)))

/-! ### Verification-step assertions of the input-field suites

Each row of an input-field suite ends in a verification step; the step is
embedded as the list of assertions it issues against the page, in order. -/

/-- One assertion issued by a verification step: either a visibility check
for a text on the page, or an equality check of the native
validationMessage of the field against an expected string. -/
inductive Assertion where
  | visible (msg : String)
  | validationEq (expected : String)
  deriving DecidableEq, Repr

/-- The result_msg column of a case row is either a single string or an
array of strings (the multi-message rows). -/
inductive ResultMsg where
  | single (m : String)
  | multi (ms : List String)
  deriving DecidableEq, Repr

namespace SimpleInput

def TXT_MSG_VALID : String := "Your input was:"

def TXT_MSG_MANDATORY : String := "Please fill out this field."

def TXT_MSG_MANDATORY_WEBKIT : String := "Fill out this field"

/-- One row of the simple input field case table. -/
structure InputCase where
  t_case : String
  t_type : List TestType
  input_str : String
  is_valid : Bool
  result_msg : ResultMsg
  deriving DecidableEq, Repr

/-- The simple input field case table, in source order. -/
def cases : List InputCase :=
  [⟨"Valid string - normal chars, hypens and underscores",
    [.Sanity, .Smoke, .Regression], "This_Is-A_validString-123", true,
    .single TXT_MSG_VALID⟩,
   ⟨"Valid string - normal chars", [.Regression], "ThisIsValidString123",
    true, .single TXT_MSG_VALID⟩,
   ⟨"Valid string - with underscores", [.Regression],
    "This_is_valid_string_123", true, .single TXT_MSG_VALID⟩,
   ⟨"Valid string - with hyphens", [.Regression],
    "This-is-valid-string-123", true, .single TXT_MSG_VALID⟩,
   ⟨"Invalid string - empty", [.Sanity, .Smoke, .Regression], "", false,
    .single TXT_MSG_MANDATORY⟩,
   ⟨"Invalid string - single character", [.Smoke, .Regression], "a", false,
    .single "Please enter 2 or more characters"⟩,
   ⟨"Invalid string - single and special character", [.Smoke, .Regression],
    "@", false,
    .multi ["Please enter 2 or more characters",
            "Enter a valid string consisting of letters, numbers, underscores or hyphens"]⟩,
   ⟨"Invalid string with whitespaces", [.Smoke, .Regression],
    "Invalid string w spaces", false,
    .single "Enter a valid string consisting of letters, numbers, underscores or hyphens"⟩,
   ⟨"Invalid string with special characters", [.Smoke, .Regression],
    "Invalid_string_w_special$#@!", false,
    .single "Enter a valid string consisting of letters, numbers, underscores or hyphens"⟩,
   ⟨"Invalid string exceeds max chars", [.Smoke, .Regression],
    "Invalid_string_0123456789-ExceedsMaxChars", false,
    .single "Please enter no more than 25 characters"⟩,
   ⟨"Invalid string exceeds max chars and contain special chars",
    [.Smoke, .Regression], "Invalid_string_speci@l_chars!_&_ExceedsMaxChars",
    false,
    .multi ["Please enter no more than 25 characters",
            "Enter a valid string consisting of letters, numbers, underscores or hyphens"]⟩]

/-- The assertions issued by the verification step of one simple input
case: an array-valued result_msg yields one visibility assertion per
message; otherwise an empty input yields an equality assertion on the
native validationMessage, substituting the webkit literal when the engine
is webkit; otherwise the single message is asserted visible.  A valid case
additionally asserts the echoed input visible. -/
def verifyAsserts (c : InputCase) (browserName : String) : List Assertion :=
  (match c.result_msg with
   | .multi msgs => msgs.map (fun m => .visible m)
   | .single m =>
     if c.input_str = "" then
       [.validationEq
         (if browserName = "webkit" then TXT_MSG_MANDATORY_WEBKIT else m)]
     else
       [.visible m])
  ++ (if c.is_valid then [.visible c.input_str] else [])

end SimpleInput

namespace EmailInput

def TXT_MSG_VALID : String := "Your input was:"

def TXT_MSG_INVALID : String := "Enter a valid email address."

def TXT_MSG_MANDATORY : String := "Please fill out this field."

def TXT_MSG_MANDATORY_WEBKIT : String := "Fill out this field"

/-- One row of the email input case table. -/
structure EmailCase where
  t_case : String
  t_type : List TestType
  email_address : String
  is_valid : Bool
  result_msg : String
  deriving DecidableEq, Repr

/-- The email input case table, in source order. -/
def cases : List EmailCase :=
  [⟨"Valid email - normal characters", [.Sanity, .Smoke, .Regression],
    "josephnepomucin@icloud.com", true, TXT_MSG_VALID⟩,
   ⟨"Valid email - normal characters and localhost domain",
    [.Smoke, .Regression], "josephnepomucin@localhost", true, TXT_MSG_VALID⟩,
   ⟨"Valid email - normal characters and hypen in domain",
    [.Smoke, .Regression], "josephnepomucin@i-cloud.com", true, TXT_MSG_VALID⟩,
   ⟨"Valid email - normal chars with dots", [.Regression],
    "joseph.nepomucin@icloud.com", true, TXT_MSG_VALID⟩,
   ⟨"Valid email - normal chars with dots and underscore", [.Regression],
    "joseph.nepomucin_2025@icloud.com", true, TXT_MSG_VALID⟩,
   ⟨"Valid email - normal chars with dots, underscore and hypen",
    [.Regression], "j-seph.nepomucin_2025@icloud.com", true, TXT_MSG_VALID⟩,
   ⟨"Valid email - normal chars with dots, underscore, hypen and special char",
    [.Regression], "j-seph.nepomucin_2025_!@icloud.com", true, TXT_MSG_VALID⟩,
   ⟨"Invalid email - empty", [.Sanity, .Smoke, .Regression], "", false,
    TXT_MSG_MANDATORY⟩,
   ⟨"Invalid email - single character", [.Sanity, .Smoke, .Regression],
    "a", false, TXT_MSG_INVALID⟩,
   ⟨"Invalid email - single and special character", [.Smoke, .Regression],
    "@", false, TXT_MSG_INVALID⟩,
   ⟨"Invalid email with whitespaces", [.Smoke, .Regression],
    "joseph nepomucin @ icloud . com", false, TXT_MSG_INVALID⟩,
   ⟨"Invalid email with special characters", [.Smoke, .Regression],
    "joseph!nepomucin@ic!loud.com", false, TXT_MSG_INVALID⟩,
   ⟨"Invalid email with double @ symbol", [.Smoke, .Regression],
    "josephnepomucin@@icloud.com", false, TXT_MSG_INVALID⟩,
   ⟨"Valid email - normal characters and underscore in domain",
    [.Smoke, .Regression], "josephnepomucin@i_cloud.com", false,
    TXT_MSG_INVALID⟩]

/-- The assertions issued by the verification step of one email case. -/
def verifyAsserts (c : EmailCase) (browserName : String) : List Assertion :=
  (if c.email_address = "" then
     [.validationEq
       (if browserName = "webkit" then TXT_MSG_MANDATORY_WEBKIT
        else c.result_msg)]
   else
     [.visible c.result_msg])
  ++ (if c.is_valid then [.visible c.email_address] else [])

end EmailInput

namespace PasswordInput

def TXT_MSG_VALID : String := "Your input was:"

def TXT_MSG_INVALID : String := "Low password complexity"

def TXT_MSG_MANDATORY : String := "Please fill out this field."

def TXT_MSG_MANDATORY_WEBKIT : String := "Fill out this field"

/-- One row of the password input case table. -/
structure PasswordCase where
  t_case : String
  t_type : List TestType
  password : String
  is_valid : Bool
  result_msg : String
  deriving DecidableEq, Repr

/-- The password input case table, in source order. -/
def cases : List PasswordCase :=
  [⟨"Valid password - short 8 chars only", [.Sanity, .Smoke, .Regression],
    "P@ssw0rd", true, TXT_MSG_VALID⟩,
   ⟨"Valid password - long", [.Regression], "P1e@seLetMeIn12345!^", true,
    TXT_MSG_VALID⟩,
   ⟨"Invalid email - empty", [.Sanity, .Smoke, .Regression], "", false,
    TXT_MSG_MANDATORY⟩,
   ⟨"Invalid email - less than 8 chars", [.Smoke, .Regression], "P@sw0rd",
    false, TXT_MSG_INVALID⟩,
   ⟨"Invalid email - no digit", [.Smoke, .Regression], "P@ssword_nodigit",
    false, TXT_MSG_INVALID⟩,
   ⟨"Invalid email - no uppercase character", [.Smoke, .Regression],
    "p@ssw0rd_no_upcase_char", false, TXT_MSG_INVALID⟩,
   ⟨"Invalid email - no lowercase character", [.Smoke, .Regression],
    "P@SSW0RD_NO_LOWCASE_CHAR", false, TXT_MSG_INVALID⟩,
   ⟨"Invalid email - no special character", [.Smoke, .Regression],
    "PassW0RDnoSpecialChar", false, TXT_MSG_INVALID⟩]

/-- The assertions issued by the verification step of one password case. -/
def verifyAsserts (c : PasswordCase) (browserName : String) : List Assertion :=
  (if c.password = "" then
     [.validationEq
       (if browserName = "webkit" then TXT_MSG_MANDATORY_WEBKIT
        else c.result_msg)]
   else
     [.visible c.result_msg])
  ++ (if c.is_valid then [.visible c.password] else [])

end PasswordInput

/-- Modelled from the spec claim wording (for comparison with the source
embedding): the expected required-field message as a function of the
browser engine name alone. -/
def mandatoryMsgFor (browserName : String) : String :=
  if browserName = "webkit" then "Fill out this field"
  else "Please fill out this field."

/-! ### Drag-and-drop boxes suite (tests/drag_and_drop, boxes page) -/

namespace Boxes

def LABEL_DRAG_BOX : String := "Drag me"

def LABEL_DROP_BOX : String := "Drop here"

def LABEL_BOX_DROPPED : String := "Dropped!"

/-- Automation actions of the drag-and-verify step of the boxes suite. -/
inductive Action where
  | dragToTarget
  | dragOutsideTarget
  | assertDropTxt (txt : String)
  deriving DecidableEq, Repr

/-- One row of the boxes case table. -/
structure BoxCase where
  t_case : String
  t_type : List TestType
  is_positive : Bool
  expected_drop_box_txt : String
  deriving DecidableEq, Repr

/-- The boxes case table, in source order. -/
def cases : List BoxCase :=
  [⟨"Drag-me inside Drop-here", [.Sanity, .Smoke, .Regression], true,
    LABEL_BOX_DROPPED⟩,
   ⟨"Drag-me outside Drop-here", [.Smoke, .Regression], false,
    LABEL_DROP_BOX⟩]

/-- The drag-and-verify step of one boxes case: the positive branch drags
the drag box onto the drop box; the negative branch drags it to a point
offset just outside the drop box, but only when the drop box bounding box
was available; both branches then assert the drop box text equals the
expected text of the row. -/
def dragVerifyActions (is_positive : Bool) (bbFound : Bool)
    (expected : String) : List Action :=
  (if is_positive then [.dragToTarget]
   else if bbFound then [.dragOutsideTarget] else [])
  ++ [.assertDropTxt expected]

end Boxes

/-! ### Drag-and-drop images suite (tests/drag_and_drop/image.spec.ts) -/

namespace Images

def LABEL_BOX_DROPPED : String := "Dropped!"

/-- Automation actions and assertions of the drag step of the images
suite. -/
inductive Action where
  | dragForward
  | dragOutside
  | dragBack
  | assertImgIn (box : Nat)
  | assertBoxTxt (box : Nat) (txt : String)
  deriving DecidableEq, Repr

/-- One row of the images case table; the source field named after the
loop keyword is rendered rep here. -/
structure ImageCase where
  t_case : String
  t_type : List TestType
  rep : Nat
  is_loop_back : Bool
  is_positive : Bool
  expected_drop_box_txt : String
  deriving DecidableEq, Repr

/-- The images case table, in source order. -/
def cases : List ImageCase :=
  [⟨"From Box_1->Box_2", [.Sanity, .Smoke, .Regression], 0, false, true,
    LABEL_BOX_DROPPED⟩,
   ⟨"From Box_1->Box_2->Box_1", [.Sanity, .Smoke, .Regression], 0, true,
    true, LABEL_BOX_DROPPED⟩,
   ⟨"From Box_1->Box_2->Box_1 (1x loop back)", [.Smoke, .Regression], 1,
    true, true, LABEL_BOX_DROPPED⟩,
   ⟨"From Box_1->Box_2->Box_1 (2x loop back)", [.Regression], 2, true, true,
    LABEL_BOX_DROPPED⟩,
   ⟨"From Box_1-> outside Box_2", [.Sanity, .Smoke, .Regression], 0, false,
    false, ""⟩,
   ⟨"From Box_1-> outside Box_2->Box_1", [.Sanity, .Smoke, .Regression], 0,
    true, false, ""⟩,
   ⟨"From Box_1-> outside Box_2->Box_1 (1x loop back)", [.Smoke, .Regression],
    1, true, false, ""⟩,
   ⟨"From Box_1-> outside Box_2->Box_1 (2x loop back)", [.Regression], 2,
    true, false, ""⟩]

/-- Body of one iteration of the positive loop-back branch: drag the image
from box 1 to box 2, assert the image visible in box 2, assert the box 2
text, drag the image back to box 1, assert it visible in box 1. -/
def posCycle (expected : String) : List Action :=
  [.dragForward, .assertImgIn 2, .assertBoxTxt 2 expected, .dragBack,
   .assertImgIn 1]

/-- Body of one iteration of the negative loop-back branch: drag the image
to just outside box 2 (only when the box 2 bounding box was available),
then drag it back to box 1. -/
def negCycle (bbFound : Bool) : List Action :=
  (if bbFound then [.dragOutside] else []) ++ [.dragBack]

/-- A for loop running its constant body the given number of times; the
source loop for i from 0 through rep runs rep + 1 iterations. -/
def runLoop (count : Nat) (body : List Action) : List Action :=
  match count with
  | 0 => []
  | k + 1 => body ++ runLoop k body

/-- The drag-and-verify step of one images case: four branches on
is_positive and is_loop_back, mirroring the source switch statements; the
negative drags are guarded by availability of the box 2 bounding box. -/
def dragStepActions (is_positive is_loop_back : Bool) (rep : Nat)
    (expected : String) (bbFound : Bool) : List Action :=
  if is_positive then
    match is_loop_back with
    | false => [.dragForward, .assertImgIn 2, .assertBoxTxt 2 expected]
    | true => runLoop (rep + 1) (posCycle expected)
  else
    match is_loop_back with
    | false => if bbFound then [.dragOutside] else []
    | true => runLoop (rep + 1) (negCycle bbFound)

/-- Where the image sits on the page: box 1, box 2, or the point just
outside box 2. -/
inductive ImgLoc where
  | box1
  | box2
  | outsideBox2
  deriving DecidableEq, Repr

/-- Effect of one action on the image location: each drag places the image
at its target, assertions move nothing. -/
def stepLoc (l : ImgLoc) (a : Action) : ImgLoc :=
  match a with
  | .dragForward => .box2
  | .dragOutside => .outsideBox2
  | .dragBack => .box1
  | _ => l

/-- The image location after running a list of actions from a start
location. -/
def runDrags (start : ImgLoc) (acts : List Action) : ImgLoc :=
  acts.foldl stepLoc start

def isForwardOrOutsideDrag : Action → Bool
  | .dragForward => true
  | .dragOutside => true
  | _ => false

def isBackDrag : Action → Bool
  | .dragBack => true
  | _ => false

def isOutsideDrag : Action → Bool
  | .dragOutside => true
  | _ => false

def isLabelAssert : Action → Bool
  | .assertBoxTxt _ _ => true
  | _ => false

end Images

/-! ### Alert confirmation and prompt suites (tests/alerts) -/

/-- What the registered dialog callback does with the dialog. -/
inductive DialogAction where
  | accept
  | acceptWith (input : String)
  | dismiss
  deriving DecidableEq, Repr

/-- Boolean test whether the first list occurs contiguously inside the
second, the semantics of the JS String includes method on char lists. -/
def leadsWith : List Char → List Char → Bool
  | [], _ => true
  | _ :: _, [] => false
  | a :: as, b :: bs => a == b && leadsWith as bs

def containsRun (needle : List Char) : List Char → Bool
  | [] => leadsWith needle []
  | b :: bs => leadsWith needle (b :: bs) || containsRun needle bs

/-- JS String includes: the needle occurs contiguously in the haystack. -/
def strIncludes (hay needle : String) : Bool :=
  containsRun needle.toList hay.toList

namespace AlertConfirm

/-- One row of the alert confirmation case table. -/
structure ConfirmCase where
  t_case : String
  t_type : List TestType
  expected_txt : String
  deriving DecidableEq, Repr

/-- The alert confirmation case table, in source order. -/
def cases : List ConfirmCase :=
  [⟨"Ok", [.Sanity, .Smoke, .Regression], "Ok"⟩,
   ⟨"Cancel", [.Sanity, .Smoke, .Regression], "Cancel"⟩]

/-- The dialog-handling branch of the confirmation suite: the Ok label
registers an accepting handler, the Cancel label a dismissing one, and any
other label falls back to a dismissing handler after logging the unknown
test case warning (the Bool component records whether the warning was
logged). -/
def dialogHandling (t_case : String) : DialogAction × Bool :=
  if t_case = "Ok" then (.accept, false)
  else if t_case = "Cancel" then (.dismiss, false)
  else (.dismiss, true)

end AlertConfirm

namespace AlertPrompt

def RESULT_TXT_NONE : String := "You entered nothing"

def RESULT_TXT_CANCEL : String := "You canceled the prompt"

/-- One row of the alert prompt case table. -/
structure PromptCase where
  t_case : String
  t_type : List TestType
  prompt_input : String
  expected_txt : String
  deriving DecidableEq, Repr

/-- The alert prompt case table, in source order. -/
def cases : List PromptCase :=
  [⟨"Ok - with prompt input", [.Sanity, .Smoke, .Regression],
    "This is a test prompt alert input text.",
    "This is a test prompt alert input text."⟩,
   ⟨"Ok - without prompt input", [.Sanity, .Smoke, .Regression], "",
    RESULT_TXT_NONE⟩,
   ⟨"Cancel", [.Sanity, .Smoke, .Regression], "", RESULT_TXT_CANCEL⟩]

/-- The dialog callback of the prompt suite: a label containing Ok accepts
(with the prompt input when non-empty), the Cancel label dismisses, and
any other label falls back to dismissing after logging the unknown test
case warning (the Bool component records whether the warning was
logged). -/
def dialogHandling (t_case prompt_input : String) : DialogAction × Bool :=
  if strIncludes t_case "Ok" then
    if prompt_input ≠ "" then (.acceptWith prompt_input, false)
    else (.accept, false)
  else if t_case = "Cancel" then (.dismiss, false)
  else (.dismiss, true)

end AlertPrompt

/-! ### Bounding-box reporter (drag-and-drop helper) -/

/-- A rectangle as returned by the measurement APIs.  The reporter only
forwards the numbers into a log line, so they are modelled as integers. -/
structure Rect where
  x : Int
  y : Int
  width : Int
  height : Int
  deriving DecidableEq, Repr

/-- The element handle as the reporter sees it: the direct boundingBox
measurement may be unavailable, the computed getBoundingClientRect
measurement is always obtainable. -/
structure ElementHandleM where
  bb : Option Rect
  clientRect : Rect
  deriving DecidableEq, Repr

/-- The three log lines the reporter can write. -/
inductive LogLine where
  | bbLine (label : String) (r : Rect)
  | rectLine (label : String) (r : Rect)
  | notFound (label : String)
  deriving DecidableEq, Repr

/-- get_bounding_box_info: logs the direct boundingBox measurement when
available, else the getBoundingClientRect fallback, else the box not found
line when the element handle itself is unavailable.  The underlying
promise resolves with no value, so the embedding returns only the log
lines the call writes. -/
def get_bounding_box_info (element : Option ElementHandleM)
    (label : String) : List LogLine :=
  match element with
  | some handler =>
    match handler.bb with
    | some r => [.bbLine label r]
    | none => [.rectLine label handler.clientRect]
  | none => [.notFound label]

end PwTests

namespace PwTests

/-! ### Theorems for the tier classifier and the test-type enumeration -/

/-- Helper: on any non-empty array getTestType succeeds with the joined
map of tags. Shared by the classifier theorems below. -/
theorem getTestType_arr_ne_nil (ts : List String) (h : ts ≠ []) :
    getTestType (.arr ts) = .ok (String.join (ts.map (fun ty => "@" ++ ty))) := by
  unfold getTestType
  simp [List.length_eq_zero, h]

/-- C1: for every non-empty list of tier labels, getTestType returns the
in-order concatenation of one tag per element, each tag being the marker
character prefixed to the label, dropping and reordering nothing; for the
three enum tiers the tags are the three annotation strings. -/
theorem getTestType_concat_in_order :
    (∀ ts : List String, ts ≠ [] →
      getTestType (.arr ts) = .ok (String.join (ts.map (fun ty => "@" ++ ty))))
    ∧ getTestType (.arr [TestType.Sanity.val]) = .ok "@sanity"
    ∧ getTestType (.arr [TestType.Smoke.val]) = .ok "@smoke"
    ∧ getTestType (.arr [TestType.Regression.val]) = .ok "@regression" :=
  ⟨getTestType_arr_ne_nil, rfl, rfl, rfl⟩

/-- Witness for C1 at a concrete two-element list. -/
theorem getTestType_concat_in_order_witness :
    getTestType (.arr ["sanity", "smoke"])
      = .ok (String.join (["sanity", "smoke"].map (fun ty => "@" ++ ty))) :=
  getTestType_concat_in_order.1 ["sanity", "smoke"] (by decide)

/-- C2: getTestType raises a TypeError exactly on an empty array or a
non-array value, and returns normally on every non-empty array of
strings. -/
theorem getTestType_guard :
    getTestType .nonArray
      = .error (.typeError "t_type must be an array of strings")
    ∧ getTestType (.arr [])
      = .error (.typeError "t_type cannot be an empty array")
    ∧ (∀ ts : List String, ts ≠ [] → ∃ s, getTestType (.arr ts) = .ok s) := by
  refine ⟨rfl, rfl, fun ts h => ?_⟩
  exact ⟨_, getTestType_arr_ne_nil ts h⟩

/-- Witness for C2 at a concrete non-empty list. -/
theorem getTestType_guard_witness :
    ∃ s, getTestType (.arr ["regression"]) = .ok s :=
  getTestType_guard.2.2 ["regression"] (by decide)

/-- C9: getTestType validates nothing about the elements: every non-empty
list of strings is accepted, including labels outside the tier enum and the
empty string. -/
theorem getTestType_no_element_validation :
    (∀ ts : List String, ts ≠ [] → ∃ s, getTestType (.arr ts) = .ok s)
    ∧ getTestType (.arr ["bogus"]) = .ok "@bogus"
    ∧ getTestType (.arr [""]) = .ok "@" := by
  exact ⟨fun ts h => ⟨_, getTestType_arr_ne_nil ts h⟩, rfl, rfl⟩

/-- Witness for C9 at a concrete out-of-enum label. -/
theorem getTestType_no_element_validation_witness :
    ∃ s, getTestType (.arr ["definitely-not-a-tier"]) = .ok s :=
  getTestType_no_element_validation.1 ["definitely-not-a-tier"] (by decide)

/-- C10: is_valid_test_type accepts exactly the three enum values, and
get_test_types returns the members in declaration order. -/
theorem testTypeDefinition_correct :
    (∀ s : String, TestTypeDefinition.is_valid_test_type s = true
      ↔ (s = "sanity" ∨ s = "smoke" ∨ s = "regression"))
    ∧ TestTypeDefinition.get_test_types
      = [TestType.Sanity, TestType.Smoke, TestType.Regression] := by
  refine ⟨fun s => ?_, rfl⟩
  unfold TestTypeDefinition.is_valid_test_type testTypeObjectValues
  simp [TestType.val, List.contains, List.elem_eq_mem, List.mem_cons]

/-- Witness for C10: a member and a non-member evaluated concretely. -/
theorem testTypeDefinition_correct_witness :
    TestTypeDefinition.is_valid_test_type "smoke" = true
    ∧ TestTypeDefinition.is_valid_test_type "bogus" = false := by
  constructor
  · exact (testTypeDefinition_correct.1 "smoke").mpr (Or.inr (Or.inl rfl))
  · by_contra h
    simp only [Bool.not_eq_false] at h
    rcases (testTypeDefinition_correct.1 "bogus").mp h with h' | h' | h' <;>
      exact absurd h' (by decide)

/-! ### Theorems for the input-field suites -/

/-- C3: in all three input suites, every empty-string case expects exactly
one equality assertion on the native validationMessage, and the expected
string is a function of the engine name alone: the webkit literal for
webkit, the other literal for every other engine. -/
theorem empty_input_validation_message (browserName : String) :
    (∀ c ∈ SimpleInput.cases, c.input_str = "" →
      SimpleInput.verifyAsserts c browserName
        = [.validationEq (mandatoryMsgFor browserName)])
    ∧ (∀ c ∈ EmailInput.cases, c.email_address = "" →
      EmailInput.verifyAsserts c browserName
        = [.validationEq (mandatoryMsgFor browserName)])
    ∧ (∀ c ∈ PasswordInput.cases, c.password = "" →
      PasswordInput.verifyAsserts c browserName
        = [.validationEq (mandatoryMsgFor browserName)]) := by
  refine ⟨?_, ?_, ?_⟩ <;>
    · intro c hc h
      fin_cases hc <;>
        simp_all [SimpleInput.verifyAsserts, EmailInput.verifyAsserts,
          PasswordInput.verifyAsserts, mandatoryMsgFor,
          SimpleInput.TXT_MSG_MANDATORY, SimpleInput.TXT_MSG_MANDATORY_WEBKIT,
          EmailInput.TXT_MSG_MANDATORY, EmailInput.TXT_MSG_MANDATORY_WEBKIT,
          PasswordInput.TXT_MSG_MANDATORY,
          PasswordInput.TXT_MSG_MANDATORY_WEBKIT]

/-- Witness for C3: the empty simple-input case on a non-webkit engine. -/
theorem empty_input_validation_message_witness :
    SimpleInput.verifyAsserts
      ⟨"Invalid string - empty", [.Sanity, .Smoke, .Regression], "", false,
        .single SimpleInput.TXT_MSG_MANDATORY⟩ "chromium"
      = [.validationEq (mandatoryMsgFor "chromium")] :=
  (empty_input_validation_message "chromium").1 _ (by decide) rfl

/-- C6: a multi-message case issues one independent visibility assertion
per message of the list, and permuting the list only permutes the issued
assertions, so order does not change which assertions are made. -/
theorem multi_message_assertions (browserName : String) :
    (∀ c ∈ SimpleInput.cases, ∀ msgs, c.result_msg = .multi msgs →
      SimpleInput.verifyAsserts c browserName = msgs.map Assertion.visible)
    ∧ (∀ l l' : List String, l.Perm l' →
      (l.map Assertion.visible).Perm (l'.map Assertion.visible)) := by
  constructor
  · intro c hc msgs h
    fin_cases hc <;> simp_all [SimpleInput.verifyAsserts]
  · intro l l' h
    exact h.map _

/-- Witness for C6: the single-and-special-character case and a concrete
two-element permutation. -/
theorem multi_message_assertions_witness :
    SimpleInput.verifyAsserts
      ⟨"Invalid string - single and special character", [.Smoke, .Regression],
        "@", false,
        .multi ["Please enter 2 or more characters",
          "Enter a valid string consisting of letters, numbers, underscores or hyphens"]⟩
      "firefox"
      = (["Please enter 2 or more characters",
          "Enter a valid string consisting of letters, numbers, underscores or hyphens"]).map
          Assertion.visible
    ∧ ((["Please enter 2 or more characters",
          "Enter a valid string consisting of letters, numbers, underscores or hyphens"]).map
          Assertion.visible).Perm
        ((["Enter a valid string consisting of letters, numbers, underscores or hyphens",
           "Please enter 2 or more characters"]).map Assertion.visible) :=
  ⟨(multi_message_assertions "firefox").1 _ (by decide) _ rfl,
   (multi_message_assertions "firefox").2 _ _ (List.Perm.swap _ _ _)⟩

/-! ### Theorems for the drag-and-drop suites -/

/-- Helper: countP distributes over the constant-body loop. -/
theorem runLoop_countP (p : Images.Action → Bool) (body : List Images.Action) :
    ∀ k, (Images.runLoop k body).countP p = k * body.countP p := by
  intro k
  induction k with
  | zero => simp [Images.runLoop]
  | succ k ih =>
    simp only [Images.runLoop, List.countP_append, ih, Nat.succ_mul]
    omega

/-- Helper: a loop whose body always parks the image in box 1 leaves the
image in box 1 when started there. -/
theorem runLoop_runDrags (body : List Images.Action)
    (h : ∀ s, Images.runDrags s body = .box1) :
    ∀ k, Images.runDrags .box1 (Images.runLoop k body) = .box1 := by
  intro k
  induction k with
  | zero => rfl
  | succ k ih =>
    show Images.runDrags _ (body ++ Images.runLoop k body) = _
    unfold Images.runDrags
    rw [List.foldl_append]
    have hb := h Images.ImgLoc.box1
    unfold Images.runDrags at hb
    rw [hb]
    exact ih

/-- Helper: the positive loop body ends with the image in box 1. -/
theorem posCycle_runDrags (e : String) (s : Images.ImgLoc) :
    Images.runDrags s (Images.posCycle e) = .box1 := rfl

/-- Helper: the negative loop body ends with the image in box 1. -/
theorem negCycle_runDrags (bb : Bool) (s : Images.ImgLoc) :
    Images.runDrags s (Images.negCycle bb) = .box1 := by
  cases bb <;> rfl

/-- Helper: the per-iteration counts of forward or outside drags and of
back drags, and the end location, for both loop-back branches. -/
theorem loopTraceFacts (n : Nat) (pos : Bool) (e : String) :
    (Images.dragStepActions pos true n e true).countP
        Images.isForwardOrOutsideDrag = n + 1
    ∧ (Images.dragStepActions pos true n e true).countP Images.isBackDrag
        = n + 1
    ∧ Images.runDrags .box1 (Images.dragStepActions pos true n e true)
        = .box1 := by
  cases pos with
  | true =>
    refine ⟨?_, ?_, ?_⟩
    · show (Images.runLoop (n + 1) (Images.posCycle e)).countP _ = _
      rw [runLoop_countP,
        show (Images.posCycle e).countP Images.isForwardOrOutsideDrag = 1
          from rfl, Nat.mul_one]
    · show (Images.runLoop (n + 1) (Images.posCycle e)).countP _ = _
      rw [runLoop_countP,
        show (Images.posCycle e).countP Images.isBackDrag = 1 from rfl,
        Nat.mul_one]
    · exact runLoop_runDrags _ (posCycle_runDrags e) (n + 1)
  | false =>
    refine ⟨?_, ?_, ?_⟩
    · show (Images.runLoop (n + 1) (Images.negCycle true)).countP _ = _
      rw [runLoop_countP,
        show (Images.negCycle true).countP Images.isForwardOrOutsideDrag = 1
          from rfl, Nat.mul_one]
    · show (Images.runLoop (n + 1) (Images.negCycle true)).countP _ = _
      rw [runLoop_countP,
        show (Images.negCycle true).countP Images.isBackDrag = 1 from rfl,
        Nat.mul_one]
    · exact runLoop_runDrags _ (negCycle_runDrags true) (n + 1)

/-- C4: every loop-back drag sequence with repeat count N performs exactly
N + 1 forward-or-outside drags and N + 1 drags back, and starting from
box 1 the image ends in box 1; the looped rows of the case table
instantiate this with their repeat counts. -/
theorem looped_drag_cycles :
    (∀ (n : Nat) (pos : Bool) (e : String),
      (Images.dragStepActions pos true n e true).countP
          Images.isForwardOrOutsideDrag = n + 1
      ∧ (Images.dragStepActions pos true n e true).countP Images.isBackDrag
          = n + 1
      ∧ Images.runDrags .box1 (Images.dragStepActions pos true n e true)
          = .box1)
    ∧ (∀ c ∈ Images.cases, c.is_loop_back = true →
      (Images.dragStepActions c.is_positive c.is_loop_back c.rep
          c.expected_drop_box_txt true).countP Images.isForwardOrOutsideDrag
        = c.rep + 1
      ∧ Images.runDrags .box1
          (Images.dragStepActions c.is_positive c.is_loop_back c.rep
            c.expected_drop_box_txt true) = .box1) := by
  refine ⟨loopTraceFacts, fun c _ h => ?_⟩
  rw [h]
  exact ⟨(loopTraceFacts c.rep c.is_positive c.expected_drop_box_txt).1,
    (loopTraceFacts c.rep c.is_positive c.expected_drop_box_txt).2.2⟩

/-- Witness for C4 at the one-repeat positive loop-back row. -/
theorem looped_drag_cycles_witness :
    (Images.dragStepActions true true 1 Images.LABEL_BOX_DROPPED true).countP
        Images.isForwardOrOutsideDrag = 2
    ∧ Images.runDrags .box1
        (Images.dragStepActions true true 1 Images.LABEL_BOX_DROPPED true)
        = .box1 :=
  looped_drag_cycles.2
    ⟨"From Box_1->Box_2->Box_1 (1x loop back)", [.Smoke, .Regression], 1,
      true, true, Images.LABEL_BOX_DROPPED⟩
    (by decide) rfl

/-- C5 counterexample: the non-looped outside-drop case of the images
suite performs an outside drop and issues no drop-label assertion at all,
refuting the claim that the runner asserts the label after every outside
drop. -/
theorem outside_drop_no_assertion_counterexample :
    (Images.dragStepActions false false 0 "" true).countP
        Images.isOutsideDrag = 1
    ∧ (Images.dragStepActions false false 0 "" true).countP
        Images.isLabelAssert = 0 := by
  decide

/-- C5 amended: in the boxes suite a drop on the target is followed by a
Dropped assertion and an outside drop by a Drop here assertion; in the
images suite every positive branch issues exactly one Dropped assertion
on box 2 per drag onto it, and the outside-drop branches issue no
drop-label assertion at all. -/
theorem drop_label_assertions :
    (∀ bb : Bool,
      Boxes.dragVerifyActions true bb Boxes.LABEL_BOX_DROPPED
        = [.dragToTarget, .assertDropTxt "Dropped!"])
    ∧ Boxes.dragVerifyActions false true Boxes.LABEL_DROP_BOX
        = [.dragOutsideTarget, .assertDropTxt "Drop here"]
    ∧ (∀ (lb : Bool) (n : Nat),
      (Images.dragStepActions true lb n Images.LABEL_BOX_DROPPED true).countP
          (fun a => a == .assertBoxTxt 2 Images.LABEL_BOX_DROPPED)
        = (Images.dragStepActions true lb n Images.LABEL_BOX_DROPPED
            true).countP Images.isForwardOrOutsideDrag)
    ∧ (∀ (lb bb : Bool) (n : Nat) (e : String),
      (Images.dragStepActions false lb n e bb).countP Images.isLabelAssert
        = 0) := by
  refine ⟨fun bb => rfl, rfl, fun lb n => ?_, fun lb bb n e => ?_⟩
  · cases lb with
    | false => rfl
    | true =>
      show (Images.runLoop (n + 1) _).countP _
        = (Images.runLoop (n + 1) _).countP _
      rw [runLoop_countP, runLoop_countP,
        show (Images.posCycle Images.LABEL_BOX_DROPPED).countP
            (fun a => a == .assertBoxTxt 2 Images.LABEL_BOX_DROPPED) = 1
          by decide,
        show (Images.posCycle Images.LABEL_BOX_DROPPED).countP
            Images.isForwardOrOutsideDrag = 1 from rfl]
  · cases lb with
    | false =>
      cases bb <;> rfl
    | true =>
      show (Images.runLoop (n + 1) (Images.negCycle bb)).countP _ = 0
      rw [runLoop_countP]
      cases bb <;> rfl

/-! ### Theorems for the alert dialog handlers -/

/-- C7: a test-case label outside the recognized set makes both alert
suites fall back to dismissing the dialog with the warning logged, and the
handler is total, raising nothing. -/
theorem unknown_dialog_label_fallback :
    (∀ t_case : String, t_case ≠ "Ok" → t_case ≠ "Cancel" →
      AlertConfirm.dialogHandling t_case = (.dismiss, true))
    ∧ (∀ t_case input : String, strIncludes t_case "Ok" = false →
      t_case ≠ "Cancel" →
      AlertPrompt.dialogHandling t_case input = (.dismiss, true)) := by
  constructor
  · intro t h1 h2
    simp [AlertConfirm.dialogHandling, h1, h2]
  · intro t i h1 h2
    simp [AlertPrompt.dialogHandling, h1, h2]

/-- Witness for C7 at a concrete unrecognized label. -/
theorem unknown_dialog_label_fallback_witness :
    AlertConfirm.dialogHandling "Bogus" = (.dismiss, true)
    ∧ AlertPrompt.dialogHandling "Bogus" "" = (.dismiss, true) :=
  ⟨unknown_dialog_label_fallback.1 "Bogus" (by decide) (by decide),
   unknown_dialog_label_fallback.2 "Bogus" "" (by decide) (by decide)⟩

/-! ### Theorems for the bounding-box reporter -/

/-- C8: the bounding-box reporter is total and writes exactly one log line
in every case: the direct measurement when available, else the computed
fallback, else the box not found line; it never fails and yields no value
beyond its log. -/
theorem bounding_box_info_total (e : Option ElementHandleM) (label : String) :
    (get_bounding_box_info e label).length = 1
    ∧ (∀ handler r, e = some handler → handler.bb = some r →
      get_bounding_box_info e label = [.bbLine label r])
    ∧ (∀ handler, e = some handler → handler.bb = none →
      get_bounding_box_info e label = [.rectLine label handler.clientRect])
    ∧ (e = none → get_bounding_box_info e label = [.notFound label]) := by
  refine ⟨?_, ?_, ?_, ?_⟩
  · rcases e with _ | handler
    · rfl
    · rcases hb : handler.bb with _ | r <;> simp [get_bounding_box_info, hb]
  · intro handler r hh hr
    subst hh
    simp [get_bounding_box_info, hr]
  · intro handler hh hr
    subst hh
    simp [get_bounding_box_info, hr]
  · intro hh
    subst hh
    rfl

/-- Witness for C8 at a concrete handle with a direct measurement. -/
theorem bounding_box_info_total_witness :
    get_bounding_box_info (some ⟨some ⟨1, 2, 3, 4⟩, ⟨0, 0, 0, 0⟩⟩)
        "Drop here"
      = [.bbLine "Drop here" ⟨1, 2, 3, 4⟩] :=
  (bounding_box_info_total (some ⟨some ⟨1, 2, 3, 4⟩, ⟨0, 0, 0, 0⟩⟩)
    "Drop here").2.1 _ _ rfl rfl

end PwTests
